import Mathlib

/-!
# Verification of the realdoc crawl-and-extract pipeline

Shallow embedding of `back/backend_python/utils/web_crawler.py` and
`back/backend_python/utils/seo_helper.py`, together with theorems settling
the spec's claims about the fetcher, the content extractor, the JS-render
fallback, the keyword-gap computation, the evidence summarizer and the
bounded-concurrency competitor crawl.

Modelling conventions:
- Python strings are Lean `String`s; Python character counts (`len`, slices)
  are Lean character counts (`String.length`, `List.take` on `toList`).
- Fallible code returns `Option`; a Python `try/except` around a parse is an
  `Option` match.
- Network I/O is modelled by a response script `Nat → FetchStep` giving the
  outcome of each GET attempt, and a jitter oracle `Nat → ℚ` standing for
  `random.random()` at each backoff.
- Environment variables are `Option Nat` parameters (`none` = unset; a set,
  well-formed numeric value otherwise), mirroring `os.getenv` with `int(...)`.
-/

namespace Realdoc

/-- Does the character list start with the given pattern? -/
def chars_begin_with : List Char → List Char → Bool
  | _, [] => true
  | [], _ :: _ => false
  | c :: cs, p :: ps => c = p && chars_begin_with cs ps

/-- Does the pattern occur contiguously in the character list? -/
def chars_contain (pat : List Char) : List Char → Bool
  | [] => pat.isEmpty
  | c :: cs => chars_begin_with (c :: cs) pat || chars_contain pat cs

/-- Substring test: `contains_sub s pat` is true iff `pat` occurs in `s`
(Python's `pat in s`). -/
def contains_sub (s pat : String) : Bool :=
  chars_contain pat.toList s.toList

/-- Lower-case every character (Python `str.lower()` on ASCII text). -/
def py_lower (s : String) : String :=
  String.mk (s.toList.map Char.toLower)

/-- Strip trailing whitespace from a character list (Python `str.rstrip()`). -/
def rstrip_chars (cs : List Char) : List Char :=
  (cs.reverse.dropWhile Char.isWhitespace).reverse

/-- Strip whitespace from both ends (Python `str.strip()`). -/
def py_strip (s : String) : String :=
  String.mk (rstrip_chars (s.toList.dropWhile Char.isWhitespace))

/-- The maximal whitespace-free words of a character list, in order (`cur`
is the current word reversed). -/
def ws_words : List Char → List Char → List (List Char)
  | [], cur => if cur.isEmpty then [] else [cur.reverse]
  | c :: cs, cur =>
    if c.isWhitespace then
      if cur.isEmpty then ws_words cs []
      else cur.reverse :: ws_words cs []
    else ws_words cs (c :: cur)

/-! ## Fetcher (`web_crawler.py`, `_classify_fetch_failure` / `_should_retry` /
`fetch_url_content`, lines 48-157) -/

/-- The information about a raised exception that the fetcher inspects:
whether it is an `aiohttp.ClientError`, whether it is an
`asyncio.TimeoutError`, and its message (`str(exc)`). TLS failures raised by
aiohttp (for example `ClientConnectorCertificateError`) are `ClientError`s
whose message mentions "ssl" or "certificate". -/
structure ExcInfo where
  isClientError : Bool
  isTimeoutError : Bool
  msg : String
deriving DecidableEq, Repr

/-- Outcome of one GET attempt: an HTTP response with status and body text,
or a raised exception. -/
inductive FetchStep where
  | response (status : Nat) (body : String)
  | excn (e : ExcInfo)
deriving DecidableEq, Repr

/-- Statuses retried by `_should_retry` (line 92). -/
def retryable_statuses : List Nat :=
  [408, 425, 429, 500, 502, 503, 504, 520, 521, 522, 523, 524]

/-- `_should_retry(status, exc)` (lines 87-92). -/
def _should_retry (status : Option Nat) (exc : Option ExcInfo) : Bool :=
  match exc with
  | some e => e.isClientError || e.isTimeoutError
  | none =>
    match status with
    | none => true
    | some s => retryable_statuses.contains s

/-- `_classify_fetch_failure(status, body, exc)` (lines 48-84): a logging /
UX label; the source comments that behaviour never changes based on it
(other than retries, which use `_should_retry` instead). -/
def _classify_fetch_failure (status : Option Nat) (body : String)
    (exc : Option ExcInfo) : String :=
  match exc with
  | some e =>
    if e.isTimeoutError then "timeout"
    else
      let msg := py_lower e.msg
      if contains_sub msg "ssl" || contains_sub msg "certificate" then "tls_error"
      else "network_error"
  | none =>
    match status with
    | none => "unknown"
    | some s =>
      if s = 401 || s = 402 then "auth_required"
      else if s = 403 || s = 406 then "forbidden"
      else if s = 407 then "proxy_auth_required"
      else if s = 408 || s = 504 then "timeout"
      else if s = 429 then "rate_limited"
      else if s = 451 then "unavailable_legal"
      else if s = 500 || s = 502 || s = 503 || s = 520 || s = 521 || s = 522
              || s = 523 || s = 524 then "upstream_error"
      else
        let body_l := py_lower body
        if contains_sub body_l "captcha" || contains_sub body_l "cloudflare"
            || contains_sub body_l "bot detection" then "waf_bot_protection"
        else "http_error"

/-- The observable trace of one `fetch_url_content` call: the returned value,
the number of GET attempts performed, and the durations of the backoff sleeps
(in seconds, `min(2 ** attempt, 8) + random.random()`). -/
structure FetchTrace where
  result : Option String
  attempts : Nat
  sleeps : List ℚ
deriving Repr

/-- Backoff sleep before retrying after `attempt` (lines 146 and 155):
`min(2 ** attempt, 8) + random.random()`, with the random draw supplied by
the jitter oracle. -/
def backoff_sleep (jitter : Nat → ℚ) (attempt : Nat) : ℚ :=
  min ((2 : ℚ) ^ attempt) 8 + jitter attempt

/-- The retry loop of `fetch_url_content` (lines 122-157):
`for attempt in range(max_retries + 1)`. `attempt` is the current index and
`remaining = max_retries - attempt` counts the retries still allowed, so
`attempt < max_retries` is `0 < remaining`. Each iteration performs one GET
(the head of the script); status 200 returns the body, otherwise the loop
retries (after a backoff sleep) exactly when retries remain and
`_should_retry` holds, and returns `None` otherwise. -/
def fetch_loop (script : Nat → FetchStep) (jitter : Nat → ℚ) :
    Nat → Nat → FetchTrace
  | attempt, remaining =>
    match script attempt with
    | .response s body =>
      if s = 200 then ⟨some body, 1, []⟩
      else
        match remaining with
        | r + 1 =>
          if _should_retry (some s) none then
            let rest := fetch_loop script jitter (attempt + 1) r
            ⟨rest.result, rest.attempts + 1,
              backoff_sleep jitter attempt :: rest.sleeps⟩
          else ⟨none, 1, []⟩
        | 0 => ⟨none, 1, []⟩
    | .excn e =>
      match remaining with
      | r + 1 =>
        if _should_retry none (some e) then
          let rest := fetch_loop script jitter (attempt + 1) r
          ⟨rest.result, rest.attempts + 1,
            backoff_sleep jitter attempt :: rest.sleeps⟩
        else ⟨none, 1, []⟩
      | 0 => ⟨none, 1, []⟩

/-- A fetch attempt that fails with a retryable outcome: a non-200 status in
the retryable set, or an exception `_should_retry` accepts. -/
def step_is_retryable_failure : FetchStep → Bool
  | .response s _ => !(s == 200) && _should_retry (some s) none
  | .excn e => _should_retry none (some e)

/-- Effective retry budget (line 114):
`max_retries = int(os.getenv("CRAWLER_MAX_RETRIES", str(max_retries)))`. -/
def effective_max_retries (env : Option Nat) (arg : Nat) : Nat :=
  env.getD arg

/-- Effective timeout (line 115):
`timeout = int(os.getenv("CRAWLER_TIMEOUT_SECONDS", str(timeout)))`. -/
def effective_timeout (env : Option Nat) (arg : Nat) : Nat :=
  env.getD arg

/-- `fetch_url_content(url, timeout, max_retries, proxy)` (lines 95-157),
as a function of the environment (`CRAWLER_MAX_RETRIES`,
`CRAWLER_TIMEOUT_SECONDS`), the caller's arguments, the response script and
the jitter oracle. The timeout only configures the HTTP session, so it does
not appear in the trace; the retry budget drives the loop. -/
def fetch_url_content (env_max_retries env_timeout : Option Nat)
    (arg_timeout arg_max_retries : Nat)
    (script : Nat → FetchStep) (jitter : Nat → ℚ) : FetchTrace :=
  let max_retries := effective_max_retries env_max_retries arg_max_retries
  let _timeout := effective_timeout env_timeout arg_timeout
  fetch_loop script jitter 0 max_retries

/-- A server that answers HTTP 503 on every attempt. -/
def script503 : Nat → FetchStep := fun _ => .response 503 ""

/-- A server that answers HTTP 403 on every attempt. -/
def script403 : Nat → FetchStep := fun _ => .response 403 ""

/-- A TLS failure as aiohttp raises it: a `ClientError` (not a
`TimeoutError`) whose message mentions the certificate. -/
def tls_exc : ExcInfo :=
  ⟨true, false, "Cannot connect to host: SSL certificate verify failed"⟩

/-- A connection that fails the TLS handshake on every attempt. -/
def script_tls : Nat → FetchStep := fun _ => .excn tls_exc

/-- Zero jitter oracle, for concrete evaluations. -/
def jitter0 : Nat → ℚ := fun _ => 0

/-- A bot-challenge interstitial body, matching the source's WAF heuristics
("cloudflare", "checking your browser"). -/
def challenge_body : String :=
  "<html><body>Checking your browser before accessing. cloudflare</body></html>"

/-- A server that answers HTTP 200 with the challenge page on every attempt. -/
def script_challenge : Nat → FetchStep := fun _ => .response 200 challenge_body

/-! ## Content extractor (`web_crawler.py`, `extract_text_content`,
lines 191-282)

The BeautifulSoup/lxml parse is abstracted: a `Soup` value records exactly
the queries the source performs against the parsed document (after the
`decompose()` pass that removes `script`, `style`, `nav`, `footer` and
`header` elements, which only affects the text-bearing fields below). The
`try/except` wrapper is the `Option Soup` argument: `none` is a raised parse
exception. -/

/-- The queries `extract_text_content` performs on the parsed document. -/
structure Soup where
  /-- `soup.title.get_text()` when a `<title>` tag exists. -/
  titleTag : Option String
  /-- `content` attribute of `<meta property="og:title">` when present
  (the source's `.get('content', '')` makes a missing attribute `""`). -/
  ogTitle : Option String
  /-- `content` attribute of `<meta name="description">` when present. -/
  metaDescription : Option String
  /-- `content` attribute of `<meta property="og:description">` when present. -/
  ogDescription : Option String
  /-- `get_text(separator=' ', strip=True)` of the first `<main>`, else
  `<article>`, else content-class `<div>`, when one exists (post-decompose). -/
  mainTagText : Option String
  /-- `get_text(separator=' ', strip=True)` of `<body>` when it exists. -/
  bodyText : Option String
  /-- `get_text()` of every `<h1>/<h2>/<h3>` in document order. -/
  headingTexts : List String
  /-- For each `<ul>/<ol>` whose class matches `feature|benefit|list`, in
  document order, the `get_text()` of its `<li>` items. -/
  featureLists : List (List String)
deriving DecidableEq, Repr

/-- `re.sub(r'\s+', ' ', s).strip()` (line 242): collapse every whitespace
run to a single space and strip the ends. -/
def collapse_ws (s : String) : String :=
  " ".intercalate ((ws_words s.toList []).map String.mk)

/-- Truncation of the main content (lines 262-263): keep the first 5000
characters and append an ellipsis marker when longer. -/
def cap_content (s : String) : String :=
  if s.length > 5000 then String.mk (s.toList.take 5000) ++ "..." else s

/-- The record returned by `extract_text_content` (lines 265-272 and
275-282). -/
structure CrawlResult where
  title : String
  description : String
  content : String
  headings : List String
  features : List String
  url : String
deriving DecidableEq, Repr

/-- The keys of the dictionary returned by `extract_text_content`, identical
in the success and failure branches (lines 265-272 and 275-282). -/
def crawl_result_keys : List String :=
  ["title", "description", "content", "headings", "features", "url"]

/-- The all-empty result of the `except` branch (lines 275-282). -/
def empty_crawl_result (url : String) : CrawlResult :=
  ⟨"", "", "", [], [], url⟩

/-- `extract_text_content(html, url)` (lines 191-282) over the abstracted
parse: `parsed = none` is the `except` branch. -/
def extract_text_content (parsed : Option Soup) (url : String) : CrawlResult :=
  match parsed with
  | none => empty_crawl_result url
  | some soup =>
    let title :=
      match soup.titleTag with
      | some t => py_strip t
      | none =>
        match soup.ogTitle with
        | some c => py_strip c
        | none => ""
    let description :=
      match soup.metaDescription with
      | some c => py_strip c
      | none =>
        match soup.ogDescription with
        | some c => py_strip c
        | none => ""
    let main_content :=
      match soup.mainTagText with
      | some t => t
      | none => soup.bodyText.getD ""
    let main_content := cap_content (collapse_ws main_content)
    let headings :=
      (soup.headingTexts.map py_strip).filter
        (fun t => t ≠ "" && t.length < 200)
    let features :=
      ((soup.featureLists.take 3).map
        (fun items => ((items.take 10).map py_strip).filter
          (fun t => t ≠ "" && t.length < 200))).flatten
    { title := title, description := description, content := main_content,
      headings := headings.take 10, features := features.take 15, url := url }

/-! ## Crawl pipeline (`web_crawler.py`, `crawl_and_extract`,
lines 285-341) -/

/-- Python truthiness of the fetched HTML (`not html` is true for `None`
and for the empty string). -/
def html_truthy : Option String → Bool
  | none => false
  | some s => s ≠ ""

/-- URL scheme validation (lines 315-317): prefix `https://` when `urlparse`
finds no scheme. Scheme presence is modelled as containing `"://"`, which
agrees with `urlparse` on the web URLs this crawler receives. -/
def normalize_url (url : String) : String :=
  if contains_sub url "://" then url else "https://" ++ url

/-- The JS-render heuristic (line 324): HTML missing, or shorter than 1000
characters, or without a `<body` marker (case-insensitive). -/
def js_trigger (html : Option String) : Bool :=
  !html_truthy html || (html.getD "").length < 1000
    || !contains_sub (py_lower (html.getD "")) "<body"

/-- `crawl_and_extract(url, ...)` (lines 285-341), as a function of the
parse oracle, the plain-fetch result, the JS-render result (`none` when
rendering is unavailable or failed; the source also treats a rendered empty
string as a failed render via truthiness) and the resolved `use_js_render`
flag. When the trigger fires and the render succeeded, the rendered HTML
replaces the plain HTML; when both are missing the call returns `none`;
otherwise the surviving HTML is extracted and the `url` key is (re)set. -/
def crawl_and_extract (parse : String → Option Soup)
    (plain rendered : Option String) (use_js_render : Bool)
    (url : String) : Option CrawlResult :=
  let url := normalize_url url
  let html := plain
  let after_render : Option (Option String) :=
    if js_trigger html && use_js_render then
      if html_truthy rendered then some rendered
      else if !html_truthy html then none
      else some html
    else some html
  match after_render with
  | none => none
  | some html =>
    if !html_truthy html then none
    else some { extract_text_content (parse (html.getD "")) url with url := url }

/-- A short plain-fetch page (shorter than 1000 characters, so the JS-render
trigger fires) with real visible text. -/
def demo_plain_html : String :=
  "<html><body>Plain page with some visible textual content for extraction.</body></html>"

/-- A rendered SPA shell with an empty body: less visible text than the
plain fetch. -/
def demo_rendered_html : String :=
  "<html><body></body></html>"

/-- Parse oracle for the two demo pages. -/
def demo_parse : String → Option Soup := fun s =>
  if s = demo_plain_html then
    some ⟨none, none, none, none, none,
      some "Plain page with some visible textual content for extraction.",
      [], []⟩
  else if s = demo_rendered_html then
    some ⟨none, none, none, none, none, some "", [], []⟩
  else none

/-! ## Evidence summarizer (`seo_helper.py`, `_truncate_text` /
`_extract_sentences` / `_extract_quotes` / `_build_site_evidence`,
lines 224-284) -/

/-- `_truncate_text(text, max_chars)` (lines 224-229). Only called with
budgets of at least 3 characters (160, 400, 200, 1200, 220). -/
def _truncate_text (text : String) (max_chars : Nat) : String :=
  if text = "" then ""
  else if text.length ≤ max_chars then text
  else String.mk (rstrip_chars (text.toList.take (max_chars - 3))) ++ "..."

/-- Is this character a sentence terminator for the split pattern
`(?<=[.!?])\s+`? -/
def sentence_end (c : Char) : Bool :=
  c = '.' || c = '!' || c = '?'

/-- The split `re.split(r"(?<=[.!?])\s+", text)` over characters: a
whitespace run right after `.`/`!`/`?` ends the current piece and is
consumed. `cur` holds the current piece reversed; whitespace arriving on an
empty `cur` belongs to the delimiter run being consumed. -/
def sentence_split : List Char → List Char → List (List Char)
  | [], cur => [cur.reverse]
  | c :: rest, cur =>
    if c.isWhitespace then
      match cur with
      | [] => sentence_split rest []
      | p :: _ =>
        if sentence_end p then cur.reverse :: sentence_split rest []
        else sentence_split rest (c :: cur)
    else sentence_split rest (c :: cur)

/-- `_extract_sentences(text, max_sentences)` (lines 232-236). -/
def _extract_sentences (text : String) (max_sentences : Nat) : List String :=
  if text = "" then []
  else
    (((sentence_split (py_strip text).toList []).map
      (fun cs => py_strip (String.mk cs))).filter (fun s => s ≠ "")).take
      max_sentences

/-- One evidence quote: the (truncated) sentence and its source URL. -/
structure Quote where
  quote : String
  source : String
deriving DecidableEq, Repr

/-- The quote-collection loop of `_extract_quotes` (lines 242-246): append
each sentence of length at least 40 (truncated to 220) and stop as soon as
`max_quotes` quotes are collected. -/
def quotes_loop (source_url : String) (max_quotes : Nat) :
    List String → List Quote → List Quote
  | [], acc => acc
  | s :: rest, acc =>
    let acc' := if s.length ≥ 40 then
      acc ++ [⟨_truncate_text s 220, source_url⟩] else acc
    if acc'.length ≥ max_quotes then acc'
    else quotes_loop source_url max_quotes rest acc'

/-- `_extract_quotes(text_sources, source_url, max_quotes)` (lines 239-247). -/
def _extract_quotes (text_sources : List String) (source_url : String)
    (max_quotes : Nat) : List Quote :=
  let combined := " ".intercalate (text_sources.filter (fun t => t ≠ ""))
  quotes_loop source_url max_quotes
    (_extract_sentences combined (max_quotes * 2)) []

/-- The crawled-data dictionary consumed by `_build_site_evidence`, with the
source's `.get` defaults (`""`, `[]`, `0`) already applied. A falsy dict
(`None` or empty) is `none` at the call site. -/
structure CrawlData where
  title : String := ""
  description : String := ""
  h1 : String := ""
  headings : List String := []
  features : List String := []
  internal_link_count : Int := 0
  internal_links : List String := []
  content : String := ""
  url : String := ""
deriving DecidableEq, Repr

/-- The bounded site-evidence object handed to the prompt builder. -/
structure SiteEvidence where
  url : String
  title : String
  description : String
  h1 : String
  headings : List String
  features : List String
  internal_link_count : Int
  internal_links : List String
  content_excerpt : String
  quotes : List Quote
deriving DecidableEq, Repr

/-- `_build_site_evidence(data, fallback_url)` (lines 250-284). -/
def _build_site_evidence (data : Option CrawlData) (fallback_url : String) :
    SiteEvidence :=
  match data with
  | none => ⟨fallback_url, "", "", "", [], [], 0, [], "", []⟩
  | some d =>
    let text_sources :=
      [d.title, d.description, d.h1,
       " ".intercalate (d.headings.take 10), d.content]
    let url := if d.url ≠ "" then d.url else fallback_url
    { url := url,
      title := _truncate_text d.title 160,
      description := _truncate_text d.description 400,
      h1 := _truncate_text d.h1 200,
      headings := d.headings.take 10,
      features := d.features.take 12,
      internal_link_count := d.internal_link_count,
      internal_links := d.internal_links.take 8,
      content_excerpt := _truncate_text d.content 1200,
      quotes := _extract_quotes text_sources url 3 }

/-- A 2000-character heading, larger than every character budget used by the
evidence builder. -/
def big_heading : String := String.mk (List.replicate 2000 'a')

/-- Crawl data whose only heading is `big_heading`. -/
def big_heading_data : CrawlData :=
  { headings := [big_heading], url := "https://example.com" }

/-! ## Keyword gaps (`seo_helper.py` line 602 calls
`compute_keyword_gaps(site_keywords, competitor_map, max_items=25)`) -/

/-- One keyword gap as returned to the report. -/
structure KeywordGap where
  keyword : String
  count : Nat
deriving DecidableEq, Repr

/-- First-seen-order deduplication of a keyword list. -/
def dedup_keep_first (l : List String) : List String :=
  l.foldl (fun acc x => if acc.contains x then acc else acc ++ [x]) []

/-- Insert into a list already sorted by descending count, after every entry
with count at least as large (stable descending order). -/
def insert_desc (x : KeywordGap) : List KeywordGap → List KeywordGap
  | [] => [x]
  | y :: ys => if x.count ≤ y.count then y :: insert_desc x ys else x :: y :: ys

/-- Stable sort by descending count. -/
def sort_desc_by_count (l : List KeywordGap) : List KeywordGap :=
  l.foldl (fun acc x => insert_desc x acc) []

/-- Modelled from the spec: `compute_keyword_gaps` is imported by
`seo_helper.py` from `utils.web_crawler` (line 30) and called at line 602,
but it is not defined in the copy of `web_crawler.py` under `src/`. Spec
sections 4.4 and 8: gap keywords are the competitors' keywords minus the
site's own, each counted by how many competitors use it, sorted descending
by that count (first-seen order on ties), capped at `max_items`. The
competitor map is an insertion-ordered association list, like a Python dict. -/
def compute_keyword_gaps (site_keywords : List String)
    (competitor_keywords_map : List (String × List String))
    (max_items : Nat) : List KeywordGap :=
  let all_competitor_keywords :=
    dedup_keep_first (competitor_keywords_map.map Prod.snd).flatten
  let gaps := all_competitor_keywords.filter
    (fun kw => !site_keywords.contains kw)
  let counted := gaps.map (fun kw =>
    KeywordGap.mk kw
      ((competitor_keywords_map.filter (fun p => p.2.contains kw)).length))
  (sort_desc_by_count counted).take max_items

/-! ## Bounded-concurrency competitor crawl (`web_crawler.py`,
`crawl_competitors`, lines 424-462)

`crawl_competitors` builds one `crawl_with_semaphore` task per URL and
gathers them; each task enters `async with semaphore` (an
`asyncio.Semaphore(max_concurrent)`) before calling `crawl_and_extract` and
releases the permit when the call finishes. Task identity and completion
order do not affect the in-flight count, so the batch state is the number of
tasks in each phase plus the free permits of the semaphore. -/

/-- State of one competitor-crawl batch: how many tasks still wait to
acquire the semaphore, how many hold a permit (their `crawl_and_extract`
call is in flight), how many have finished, and the free permits. -/
structure BatchState where
  pending : Nat
  in_flight : Nat
  finished : Nat
  permits : Nat
deriving DecidableEq, Repr

/-- The batch as `crawl_competitors(urls, max_concurrent)` starts it:
`len(urls)` tasks, none started, a fresh `asyncio.Semaphore(max_concurrent)`. -/
def init_batch (num_urls max_concurrent : Nat) : BatchState :=
  ⟨num_urls, 0, 0, max_concurrent⟩

/-- One scheduler step: a pending task acquires a free permit and its
`crawl_and_extract` call goes in flight, or an in-flight call finishes and
releases its permit (the `async with` exit, also on exception). -/
inductive BatchStep : BatchState → BatchState → Prop where
  | acquire (s : BatchState) (hp : 0 < s.pending) (hsem : 0 < s.permits) :
      BatchStep s ⟨s.pending - 1, s.in_flight + 1, s.finished, s.permits - 1⟩
  | release (s : BatchState) (hf : 0 < s.in_flight) :
      BatchStep s ⟨s.pending, s.in_flight - 1, s.finished + 1, s.permits + 1⟩

/-- Reachability under the batch scheduler. -/
inductive BatchReachable (s0 : BatchState) : BatchState → Prop where
  | refl : BatchReachable s0 s0
  | step {s t : BatchState} (hr : BatchReachable s0 s) (hs : BatchStep s t) :
      BatchReachable s0 t

/-! ## Helper lemmas -/

theorem range_succ_map_shift {β : Type} (f : Nat → β) (attempt r : Nat) :
    (List.range (r + 1)).map (fun i => f (attempt + i)) =
      f attempt :: (List.range r).map (fun i => f (attempt + 1 + i)) := by
  rw [List.range_succ_eq_map, List.map_cons, List.map_map]
  refine congrArg₂ _ (by rw [Nat.add_zero]) ?_
  apply List.map_congr_left
  intro i _
  simp only [Function.comp]
  congr 1
  omega

theorem fetch_loop_retryable_failures (script : Nat → FetchStep)
    (jitter : Nat → ℚ)
    (h : ∀ a, step_is_retryable_failure (script a) = true) :
    ∀ (r attempt : Nat), fetch_loop script jitter attempt r =
      ⟨none, r + 1,
       (List.range r).map (fun i => backoff_sleep jitter (attempt + i))⟩ := by
  intro r
  induction r with
  | zero =>
    intro attempt
    have hs := h attempt
    rw [fetch_loop]
    cases hsc : script attempt with
    | response s body =>
      rw [hsc] at hs
      simp only [step_is_retryable_failure, Bool.and_eq_true, bne_iff_ne,
        ne_eq, beq_iff_eq, Bool.not_eq_eq_eq_not, Bool.not_true] at hs
      have h200 : ¬ s = 200 := by
        intro hcontra
        rw [hcontra] at hs
        simp at hs
      simp [h200]
    | excn e =>
      simp
  | succ r ih =>
    intro attempt
    have hs := h attempt
    rw [fetch_loop]
    cases hsc : script attempt with
    | response s body =>
      rw [hsc] at hs
      simp only [step_is_retryable_failure, Bool.and_eq_true] at hs
      have h200 : ¬ s = 200 := by
        intro hcontra
        rw [hcontra] at hs
        simp at hs
      simp only [h200, if_false, ite_false, hs.2, if_true, ite_true,
        ih (attempt + 1)]
      refine congrArg₂ _ rfl ?_
      exact (range_succ_map_shift (backoff_sleep jitter) attempt r).symm
    | excn e =>
      rw [hsc] at hs
      simp only [step_is_retryable_failure] at hs
      simp only [hs, if_true, ite_true, ih (attempt + 1)]
      refine congrArg₂ _ rfl ?_
      exact (range_succ_map_shift (backoff_sleep jitter) attempt r).symm

/-! ## Claim theorems: fetcher -/

/-- C5: against a server that answers HTTP 503 on every attempt,
`fetch_url_content` performs at most `max_retries + 1` GET attempts (exactly
that many), sleeps `min(2 ** attempt, 8) + random()` between consecutive
attempts, and returns `None`. -/
theorem fetch_503_bounded_retries_then_null (t m : Nat) (jitter : Nat → ℚ) :
    (fetch_url_content none none t m script503 jitter).result = none ∧
    (fetch_url_content none none t m script503 jitter).attempts = m + 1 ∧
    (fetch_url_content none none t m script503 jitter).sleeps =
      (List.range m).map
        (fun attempt => min ((2 : ℚ) ^ attempt) 8 + jitter attempt) := by
  have h := fetch_loop_retryable_failures script503 jitter
    (fun _ => rfl) m 0
  have heq : fetch_url_content none none t m script503 jitter =
      fetch_loop script503 jitter 0 m := rfl
  rw [heq, h]
  refine ⟨rfl, rfl, ?_⟩
  apply List.map_congr_left
  intro i _
  simp [backoff_sleep]

/-- C6 (amended): on a permanent HTTP status (401, 402, 403, 406, 451) the
fetcher performs exactly one GET attempt, sleeps never, and returns `None`;
but a TLS failure, being an `aiohttp.ClientError`, is treated as a transient
network exception and retried up to `max_retries + 1` total attempts before
returning `None`. -/
theorem fetch_permanent_status_single_attempt :
    (∀ s, s ∈ ([401, 402, 403, 406, 451] : List Nat) →
      ∀ (script : Nat → FetchStep) (body : String) (jitter : Nat → ℚ)
        (t m : Nat),
        script 0 = FetchStep.response s body →
        fetch_url_content none none t m script jitter = ⟨none, 1, []⟩) ∧
    (∀ (t m : Nat) (jitter : Nat → ℚ),
      (fetch_url_content none none t m script_tls jitter).result = none ∧
      (fetch_url_content none none t m script_tls jitter).attempts = m + 1) := by
  constructor
  · intro s hs script body jitter t m hscript
    have heq : fetch_url_content none none t m script jitter =
        fetch_loop script jitter 0 m := rfl
    rw [heq, fetch_loop, hscript]
    fin_cases hs <;> cases m <;> simp [_should_retry, retryable_statuses]
  · intro t m jitter
    have h := fetch_loop_retryable_failures script_tls jitter
      (fun _ => rfl) m 0
    have heq : fetch_url_content none none t m script_tls jitter =
        fetch_loop script_tls jitter 0 m := rfl
    rw [heq, h]
    exact ⟨rfl, rfl⟩

/-- C6 witness: a server answering 403 gives exactly one attempt and `None`. -/
theorem fetch_permanent_status_single_attempt_witness :
    fetch_url_content none none 10 2 script403 jitter0 = ⟨none, 1, []⟩ :=
  fetch_permanent_status_single_attempt.1 403 (by decide) script403 ""
    jitter0 10 2 rfl

/-- C6 counterexample: a fetch that fails the TLS handshake on every attempt
— classified "tls_error" by the source's own classifier — performs 3
attempts with `max_retries = 2`, not exactly 1. -/
theorem fetch_tls_error_is_retried :
    (fetch_url_content none none 10 2 script_tls jitter0).attempts = 3 ∧
    (fetch_url_content none none 10 2 script_tls jitter0).result = none ∧
    _classify_fetch_failure none "" (some tls_exc) = "tls_error" := by
  refine ⟨by decide, by decide, by decide⟩

/-- C3 (amended): whenever the first GET returns HTTP 200,
`fetch_url_content` returns the body after exactly one attempt — even when
the body is a WAF/bot-challenge interstitial. The challenge heuristics live
only in `_classify_fetch_failure`, which is consulted for logging on non-200
statuses and never changes the returned value. -/
theorem fetch_200_returns_body_even_challenge (script : Nat → FetchStep)
    (body : String) (jitter : Nat → ℚ) (t m : Nat)
    (hscript : script 0 = FetchStep.response 200 body) :
    fetch_url_content none none t m script jitter = ⟨some body, 1, []⟩ := by
  have heq : fetch_url_content none none t m script jitter =
      fetch_loop script jitter 0 m := rfl
  rw [heq, fetch_loop, hscript]
  simp

/-- C3 witness: the 200-returns-body theorem applied to the challenge-page
server. -/
theorem fetch_200_returns_body_even_challenge_witness :
    fetch_url_content none none 10 2 script_challenge jitter0 =
      ⟨some challenge_body, 1, []⟩ :=
  fetch_200_returns_body_even_challenge script_challenge challenge_body
    jitter0 10 2 rfl

/-- C3 counterexample: an HTTP 200 response whose body the source's own
heuristics classify as a WAF/bot-challenge page ("cloudflare", "checking
your browser") is returned as content, not turned into `None`. -/
theorem fetch_returns_challenge_body_on_200 :
    (fetch_url_content none none 10 2 script_challenge jitter0).result =
      some challenge_body ∧
    _classify_fetch_failure (some 200) challenge_body none =
      "waf_bot_protection" := by
  refine ⟨by decide, by decide⟩

/-- C10: the environment overrides the caller's arguments rather than only
supplying defaults: a set `CRAWLER_MAX_RETRIES` / `CRAWLER_TIMEOUT_SECONDS`
makes the explicit `max_retries` / `timeout` arguments irrelevant, and two
calls with identical arguments but different environments perform different
numbers of GET attempts (1 versus 3 on an always-503 server). -/
theorem fetch_env_overrides_arguments :
    (∀ (e a1 a2 : Nat),
      effective_max_retries (some e) a1 = effective_max_retries (some e) a2) ∧
    (∀ (e a1 a2 : Nat),
      effective_timeout (some e) a1 = effective_timeout (some e) a2) ∧
    (fetch_url_content (some 0) none 10 2 script503 jitter0).attempts = 1 ∧
    (fetch_url_content none none 10 2 script503 jitter0).attempts = 3 := by
  refine ⟨fun _ _ _ => rfl, fun _ _ _ => rfl, by decide, by decide⟩

/-! ## Claim theorems: content extractor -/

/-- C1: `extract_text_content` is total (the embedding is a Lean function);
on parser failure it returns the record whose string fields are all `""` and
whose list fields are all `[]`, with the given url preserved; and the url
field equals the given url on every input. -/
theorem extract_text_content_failure_safe (url : String) :
    extract_text_content none url = empty_crawl_result url ∧
    empty_crawl_result url = ⟨"", "", "", [], [], url⟩ ∧
    ∀ (parsed : Option Soup), (extract_text_content parsed url).url = url := by
  refine ⟨rfl, rfl, ?_⟩
  intro parsed
  cases parsed <;> rfl

theorem cap_content_length_le (s : String) : (cap_content s).length ≤ 5003 := by
  unfold cap_content
  split
  · have h1 : (String.mk (s.toList.take 5000) ++ "...").length =
        (s.toList.take 5000).length + 3 := by
      rw [String.length_append]
      rfl
    have h2 : (s.toList.take 5000).length ≤ 5000 := List.length_take_le _ _
    omega
  · omega

/-- C2 counterexample: the record `extract_text_content` returns has no
`internal_links` key at all (in either branch), so the claimed cap on an
`internal_links` list field does not describe this record. -/
theorem crawl_result_lacks_internal_links_key :
    ¬ ("internal_links" ∈ crawl_result_keys) := by decide

/-- C2 (amended): the caps actually configured are 5000 characters plus an
ellipsis for `content` (so at most 5003), 10 entries for `headings` and 15
for `features` — all within the claimed 8000/12/18 — and the record carries
no `internal_links` field. -/
theorem extract_text_content_caps (parsed : Option Soup) (url : String) :
    (extract_text_content parsed url).content.length ≤ 5003 ∧
    (extract_text_content parsed url).headings.length ≤ 10 ∧
    (extract_text_content parsed url).features.length ≤ 15 ∧
    ¬ ("internal_links" ∈ crawl_result_keys) := by
  cases parsed with
  | none =>
    exact ⟨by simp [extract_text_content, empty_crawl_result],
      by simp [extract_text_content, empty_crawl_result],
      by simp [extract_text_content, empty_crawl_result], by decide⟩
  | some soup =>
    exact ⟨cap_content_length_le _, List.length_take_le _ _,
      List.length_take_le _ _, by decide⟩

/-! ## Claim theorems: crawl pipeline / JS-render fallback -/

/-- C4 counterexample: with a sub-1000-character plain fetch (trigger fires)
and a successful render whose page has an empty body, `crawl_and_extract`
returns the all-empty extraction of the rendered page even though the
plain-fetch extraction had non-empty content — the render result supersedes
without any visible-text comparison, and the pipeline produces less content
than the plain fetch already had. -/
theorem crawl_render_result_supersedes_despite_less_text :
    crawl_and_extract demo_parse (some demo_plain_html)
      (some demo_rendered_html) true "https://example.com" =
      some (empty_crawl_result "https://example.com") ∧
    (extract_text_content (demo_parse demo_plain_html)
      "https://example.com").content =
      "Plain page with some visible textual content for extraction." := by
  refine ⟨by decide, by decide⟩

/-- C4 (amended): whenever the JS-render trigger fires and the renderer
returns truthy HTML, that HTML replaces the plain-fetch HTML
unconditionally (no comparison of visible-text lengths), and the returned
record is the extraction of the rendered HTML. -/
theorem crawl_render_success_replaces_plain (parse : String → Option Soup)
    (plain rendered : Option String) (use_js_render : Bool) (url : String)
    (htrig : (js_trigger plain && use_js_render) = true)
    (hrend : html_truthy rendered = true) :
    crawl_and_extract parse plain rendered use_js_render url =
      some { extract_text_content (parse (rendered.getD ""))
        (normalize_url url) with url := normalize_url url } := by
  unfold crawl_and_extract
  simp [htrig, hrend]

/-- C4 witness: the supersede theorem applied to the demo pages. -/
theorem crawl_render_success_replaces_plain_witness :
    crawl_and_extract demo_parse (some demo_plain_html)
      (some demo_rendered_html) true "https://example.com" =
      some { extract_text_content
        (demo_parse ((some demo_rendered_html).getD ""))
        (normalize_url "https://example.com") with
        url := normalize_url "https://example.com" } :=
  crawl_render_success_replaces_plain demo_parse (some demo_plain_html)
    (some demo_rendered_html) true "https://example.com" (by decide)
    (by decide)

/-! ## Claim theorems: keyword gaps -/

/-- C7: the keyword-gap scenario: the site's own keywords are excluded,
each gap keyword is counted by how many competitors use it, and the result
is ordered by descending competitor count. -/
theorem compute_keyword_gaps_scenario :
    compute_keyword_gaps ["video", "editing"]
      [("a.com", ["video", "ai", "captions"]),
       ("b.com", ["captions", "branding"])] 25 =
      [⟨"captions", 2⟩, ⟨"ai", 1⟩, ⟨"branding", 1⟩] := by decide

/-! ## Claim theorems: evidence summarizer -/

theorem rstrip_chars_length_le (cs : List Char) :
    (rstrip_chars cs).length ≤ cs.length := by
  unfold rstrip_chars
  have h := (List.dropWhile_suffix (l := cs.reverse)
    (p := Char.isWhitespace)).sublist.length_le
  simpa using h

theorem truncate_text_length_le (text : String) (m : Nat) (h : 3 ≤ m) :
    (_truncate_text text m).length ≤ m := by
  unfold _truncate_text
  split_ifs with h1 h2
  · simp
  · exact h2
  · have h3 : (rstrip_chars (text.toList.take (m - 3))).length ≤ m - 3 :=
      le_trans (rstrip_chars_length_le _) (List.length_take_le _ _)
    have h4 : (String.mk (rstrip_chars (text.toList.take (m - 3))) ++
        "...").length = (rstrip_chars (text.toList.take (m - 3))).length + 3 := by
      rw [String.length_append]
      rfl
    omega

theorem quotes_loop_length_le (u : String) (mq : Nat) :
    ∀ (l : List String) (acc : List Quote), acc.length < mq →
      (quotes_loop u mq l acc).length ≤ mq := by
  intro l
  induction l with
  | nil =>
    intro acc h
    rw [quotes_loop]
    omega
  | cons s rest ih =>
    intro acc h
    rw [quotes_loop]
    split
    · split
      · simp only [List.length_append, List.length_singleton]
        omega
      · next hlt => exact ih _ (by omega)
    · split
      · omega
      · exact ih _ h

theorem quotes_loop_quote_le (u : String) (mq : Nat) :
    ∀ (l : List String) (acc : List Quote),
      (∀ q ∈ acc, q.quote.length ≤ 220) →
      ∀ q ∈ quotes_loop u mq l acc, q.quote.length ≤ 220 := by
  intro l
  induction l with
  | nil =>
    intro acc h
    rw [quotes_loop]
    exact h
  | cons s rest ih =>
    intro acc h
    have happ : ∀ q ∈ acc ++ [(⟨_truncate_text s 220, u⟩ : Quote)],
        q.quote.length ≤ 220 := by
      intro q hq
      rcases List.mem_append.mp hq with hq | hq
      · exact h q hq
      · have hq' : q = ⟨_truncate_text s 220, u⟩ := by simpa using hq
        rw [hq']
        exact truncate_text_length_le s 220 (by omega)
    rw [quotes_loop]
    split
    · split
      · exact happ
      · exact ih _ happ
    · split
      · exact h
      · exact ih _ h

/-- C8 counterexample: a heading string enters the evidence object verbatim:
with a single 2000-character heading, `_build_site_evidence` puts that exact
string into `headings` untruncated, exceeding every character budget the
builder uses (160/400/200/1200/220). -/
theorem site_evidence_heading_not_truncated :
    (_build_site_evidence (some big_heading_data)
      "https://example.com").headings = [big_heading] ∧
    big_heading.length = 2000 := by
  constructor
  · rfl
  · have h : big_heading.length = (List.replicate 2000 'a').length := rfl
    rw [h, List.length_replicate]

/-- C8 (amended): the scalar string fields of the site evidence are
truncated (`title` ≤ 160, `description` ≤ 400, `h1` ≤ 200,
`content_excerpt` ≤ 1200) and its lists are capped (10 headings, 12
features, 8 internal links, 3 quotes of ≤ 220 characters each) for every
input; but list elements and the url pass through verbatim, without any
truncation helper. -/
theorem site_evidence_bounded (data : Option CrawlData)
    (fallback_url : String) :
    (_build_site_evidence data fallback_url).title.length ≤ 160 ∧
    (_build_site_evidence data fallback_url).description.length ≤ 400 ∧
    (_build_site_evidence data fallback_url).h1.length ≤ 200 ∧
    (_build_site_evidence data fallback_url).content_excerpt.length ≤ 1200 ∧
    (_build_site_evidence data fallback_url).headings.length ≤ 10 ∧
    (_build_site_evidence data fallback_url).features.length ≤ 12 ∧
    (_build_site_evidence data fallback_url).internal_links.length ≤ 8 ∧
    (_build_site_evidence data fallback_url).quotes.length ≤ 3 ∧
    (_build_site_evidence data fallback_url).quotes.all
      (fun q => q.quote.length ≤ 220) = true := by
  cases data with
  | none =>
    refine ⟨?_, ?_, ?_, ?_, ?_, ?_, ?_, ?_, ?_⟩ <;>
      simp [_build_site_evidence]
  | some d =>
    refine ⟨truncate_text_length_le _ _ (by omega),
      truncate_text_length_le _ _ (by omega),
      truncate_text_length_le _ _ (by omega),
      truncate_text_length_le _ _ (by omega),
      List.length_take_le _ _, List.length_take_le _ _,
      List.length_take_le _ _, ?_, ?_⟩
    · exact quotes_loop_length_le _ _ _ _ (by simp)
    · rw [List.all_eq_true]
      intro q hq
      rw [decide_eq_true_eq]
      exact quotes_loop_quote_le _ _ _ _ (by simp) q hq

/-! ## Claim theorems: bounded-concurrency competitor crawl -/

theorem batch_in_flight_add_permits (M K : Nat) :
    ∀ s, BatchReachable (init_batch M K) s → s.in_flight + s.permits = K := by
  intro s h
  induction h with
  | refl => simp [init_batch]
  | step hr hs ih =>
    cases hs with
    | acquire hp hsem => simp only []; omega
    | release hf => simp only []; omega

/-- C9: in `crawl_competitors`, every state reachable from the initial batch
(`M` pending tasks, an `asyncio.Semaphore(K)`) has at most `K`
`crawl_and_extract` calls in flight: each call holds a semaphore permit for
its whole duration, and permits plus in-flight calls are conserved. -/
theorem crawl_competitors_in_flight_bounded (M K : Nat) (s : BatchState)
    (h : BatchReachable (init_batch M K) s) : s.in_flight ≤ K := by
  have hinv := batch_in_flight_add_permits M K s h
  omega

/-- C9 witness: the bound applied to a concrete batch of 5 URLs with
concurrency limit 3, at the (reachable) initial state. -/
theorem crawl_competitors_in_flight_bounded_witness :
    (init_batch 5 3).in_flight ≤ 3 :=
  crawl_competitors_in_flight_bounded 5 3 (init_batch 5 3)
    BatchReachable.refl

end Realdoc
